import Mathlib

/-!
Shallow embedding of the health/lifecycle core of the geass-trading service:
`src/config/prisma.service.ts`, `src/health/health.service.ts` and
`src/health/health.controller.ts`.

Every effectful primitive of the TypeScript code (a raw SQL statement, the
`$connect`/`$disconnect` calls, a wall-clock latency measurement) is an input
supplied by an environment record; each method becomes a pure Lean function of
that environment.  A method that can reject returns `Except String α`
(`.error e` models a raised exception with message `e`); catch blocks become
`match` arms.  Methods of the Prisma service also return the ordered trace of
primitive events they issued, so ordering and logging claims can be stated.
-/

/-- Outcome of one underlying effectful primitive: either it succeeds or it
raises an exception carrying a message. -/
abbrev Outcome := Except String Unit

/-- Primitive events a `PrismaService` method can issue, in program order.
`enableExtension` is the `CREATE EXTENSION IF NOT EXISTS timescaledb` raw
statement being issued; `createHypertable` is the `create_hypertable` raw
statement; `selectOne` is the `SELECT 1` round trip of `isHealthy`. -/
inductive DbEvent
  | connectOk
  | connectFailed
  | disconnectOk
  | disconnectFailed
  | enableExtension
  | createHypertable
  | selectOne
  | logInfo
  | logWarn
  | logError
deriving DecidableEq

/-- The environment of one `PrismaService` call context: the outcome each
underlying Prisma-client primitive would have if invoked. -/
structure PrismaEnv where
  connectResult : Outcome
  disconnectResult : Outcome
  enableExtensionResult : Outcome
  createHypertableResult : Outcome
  selectOneResult : Outcome

/-- Result of running an effectful method: the trace of primitive events it
issued, and either its return value or the exception it propagates. -/
structure EffResult (α : Type) where
  trace : List DbEvent
  result : Except String α

namespace PrismaService

/-- `PrismaService.enableTimescaleDB`: issues `CREATE EXTENSION IF NOT EXISTS
timescaledb CASCADE`; success is logged, any exception is caught and logged as
a warning.  Never rejects. -/
def enableTimescaleDB (env : PrismaEnv) : EffResult Unit :=
  match env.enableExtensionResult with
  | .ok _ => ⟨[.enableExtension, .logInfo], .ok ()⟩
  | .error _ => ⟨[.enableExtension, .logWarn], .ok ()⟩

/-- `PrismaService.createMarketDataHypertable`: issues
`SELECT create_hypertable('market_data', 'time', if_not_exists => TRUE)`;
success is logged, any exception is caught and logged as a warning.
Never rejects. -/
def createMarketDataHypertable (env : PrismaEnv) : EffResult Unit :=
  match env.createHypertableResult with
  | .ok _ => ⟨[.createHypertable, .logInfo], .ok ()⟩
  | .error _ => ⟨[.createHypertable, .logWarn], .ok ()⟩

/-- `PrismaService.initializeTimescaleDB`: awaits `enableTimescaleDB`, then
`createMarketDataHypertable`, inside a try/catch whose handler logs a warning.
The outer catch is kept faithfully even though both inner methods already
swallow their own exceptions. -/
def initializeTimescaleDB (env : PrismaEnv) : EffResult Unit :=
  let r1 := enableTimescaleDB env
  match r1.result with
  | .error _ => ⟨r1.trace ++ [.logWarn], .ok ()⟩
  | .ok _ =>
    let r2 := createMarketDataHypertable env
    match r2.result with
    | .error _ => ⟨r1.trace ++ r2.trace ++ [.logWarn], .ok ()⟩
    | .ok _ => ⟨r1.trace ++ r2.trace, .ok ()⟩

/-- `PrismaService.onModuleInit`: awaits `$connect`, logs success, then awaits
`initializeTimescaleDB`; the catch handler logs the error and rethrows it. -/
def onModuleInit (env : PrismaEnv) : EffResult Unit :=
  match env.connectResult with
  | .error e => ⟨[.connectFailed, .logError], .error e⟩
  | .ok _ =>
    let r := initializeTimescaleDB env
    match r.result with
    | .error e => ⟨.connectOk :: .logInfo :: (r.trace ++ [.logError]), .error e⟩
    | .ok _ => ⟨.connectOk :: .logInfo :: r.trace, .ok ()⟩

/-- `PrismaService.onModuleDestroy`: awaits `$disconnect`; any exception is
caught and logged as an error.  Never rejects. -/
def onModuleDestroy (env : PrismaEnv) : EffResult Unit :=
  match env.disconnectResult with
  | .ok _ => ⟨[.disconnectOk, .logInfo], .ok ()⟩
  | .error _ => ⟨[.disconnectFailed, .logError], .ok ()⟩

/-- `PrismaService.isHealthy`: awaits `` this.$queryRaw`SELECT 1` `` and
returns `true`; any exception is caught and converted to `false`.
Never rejects. -/
def isHealthy (env : PrismaEnv) : EffResult Bool :=
  match env.selectOneResult with
  | .ok _ => ⟨[.selectOne], .ok true⟩
  | .error _ => ⟨[.selectOne], .ok false⟩

end PrismaService

/-- The spec's `ConnectionState` abstraction of the managed connection. -/
inductive ConnectionState
  | Disconnected
  | Connecting
  | Connected
  | Failed
deriving DecidableEq

/-- How one primitive event moves the connection state: only connect and
disconnect outcomes change it. -/
def stepConn : ConnectionState → DbEvent → ConnectionState
  | _, .connectOk => .Connected
  | _, .connectFailed => .Failed
  | _, .disconnectOk => .Disconnected
  | s, _ => s

/-- Connection state after a trace of primitive events. -/
def connStateAfter (s : ConnectionState) (t : List DbEvent) : ConnectionState :=
  t.foldl stepConn s

/-! ## Health service (`src/health/health.service.ts`) -/

/-- One entry of the `checks` object built by `HealthService.check`. -/
structure CheckEntry where
  status : String
  responseTime : Int
  details : String
deriving DecidableEq

/-- The `checks` object literal of `HealthService.check`, with its two keys. -/
structure Checks where
  database : CheckEntry
  redis : CheckEntry
deriving DecidableEq

/-- `Object.values(checks)` in source order. -/
def Checks.values (c : Checks) : List CheckEntry :=
  [c.database, c.redis]

/-- The body returned by `HealthService.check` (`HealthResponseDto`).  The
floating-point `memory` telemetry block is not modelled; no claim concerns
it. -/
structure HealthSnapshot where
  status : String
  timestamp : String
  uptime : Nat
  checks : Checks
  version : String
  environment : String
deriving DecidableEq

/-- The `dependencies` object literal of `HealthService.readiness`. -/
structure Dependencies where
  database : Bool
  redis : Bool
deriving DecidableEq

/-- `Object.values(dependencies)` in source order. -/
def Dependencies.values (d : Dependencies) : List Bool :=
  [d.database, d.redis]

/-- The body returned by `HealthService.readiness`. -/
structure ReadinessSnapshot where
  status : String
  timestamp : String
  dependencies : Dependencies
deriving DecidableEq

/-- The environment of one `HealthService` call context: the underlying Prisma
primitives, the wall-clock latencies the two probes would measure, the clock
reading, and the process-level passthrough fields. -/
structure HealthEnv where
  prisma : PrismaEnv
  /-- `Date.now() - start` as measured by `checkDatabase`. -/
  dbElapsed : Nat
  /-- `Date.now() - start` as measured by `checkRedis` around its
  `setTimeout(resolve, 5)` simulated wait.  `setTimeout` with a 5 ms delay
  waits at least 5 ms, so realistic contexts have `5 ≤ redisElapsed`; that
  bound is taken as a hypothesis where a claim needs it. -/
  redisElapsed : Nat
  now : String
  uptime : Nat
  version : String
  environment : String

namespace HealthService

/-- `HealthService.checkDatabase`: awaits `prismaService.isHealthy()` inside a
try/catch; returns the measured elapsed time when healthy, `-1` when unhealthy
or when anything rejects.  Never rejects. -/
def checkDatabase (env : HealthEnv) : Except String Int :=
  match (PrismaService.isHealthy env.prisma).result with
  | .ok b => .ok (if b then (env.dbElapsed : Int) else -1)
  | .error _ => .ok (-1)

/-- `HealthService.checkRedis`: no Redis client is wired; the body awaits a
5 ms `setTimeout` wait (which never rejects, so the catch arm returning `-1`
is unreachable) and returns the measured elapsed time.  Never rejects. -/
def checkRedis (env : HealthEnv) : Except String Int :=
  .ok (env.redisElapsed : Int)

/-- `HealthService.isDatabaseHealthy`: awaits `checkDatabase` inside a
try/catch and returns `responseTime > 0`; any rejection becomes `false`. -/
def isDatabaseHealthy (env : HealthEnv) : Except String Bool :=
  match checkDatabase env with
  | .ok rt => .ok (decide (0 < rt))
  | .error _ => .ok false

/-- `HealthService.isRedisHealthy`: awaits `checkRedis` inside a try/catch and
returns `responseTime > 0`; any rejection becomes `false`. -/
def isRedisHealthy (env : HealthEnv) : Except String Bool :=
  match checkRedis env with
  | .ok rt => .ok (decide (0 < rt))
  | .error _ => .ok false

/-- `HealthService.check`: builds the `checks` object — each entry with the
hard-coded literal `status: 'up' as const` and the awaited probe latency —
then sets the overall status to `'ok'` when
`Object.values(checks).every(check => check.status === 'up')` and `'error'`
otherwise.  A rejection of either awaited probe would propagate (neither ever
rejects). -/
def check (env : HealthEnv) : Except String HealthSnapshot :=
  match checkDatabase env with
  | .error e => .error e
  | .ok dbRt =>
    match checkRedis env with
    | .error e => .error e
    | .ok redisRt =>
      let checks : Checks :=
        { database := { status := "up", responseTime := dbRt
                        details := "Connected successfully" }
          redis := { status := "up", responseTime := redisRt
                     details := "Connected successfully" } }
      let allHealthy := checks.values.all (fun c => c.status == "up")
      .ok { status := if allHealthy then "ok" else "error"
            timestamp := env.now
            uptime := env.uptime
            checks := checks
            version := env.version
            environment := env.environment }

/-- `HealthService.readiness`: awaits `isDatabaseHealthy` and
`isRedisHealthy`, builds the `dependencies` object, and sets the status to
`'ready'` when `Object.values(dependencies).every(Boolean)` and `'not-ready'`
otherwise.  A rejection of either awaited call would propagate (neither ever
rejects). -/
def readiness (env : HealthEnv) : Except String ReadinessSnapshot :=
  match isDatabaseHealthy env with
  | .error e => .error e
  | .ok dbHealthy =>
    match isRedisHealthy env with
    | .error e => .error e
    | .ok redisHealthy =>
      let deps : Dependencies := { database := dbHealthy, redis := redisHealthy }
      let allReady := deps.values.all (fun b => b)
      .ok { status := if allReady then "ready" else "not-ready"
            timestamp := env.now
            dependencies := deps }

end HealthService

/-! ## Health controller (`src/health/health.controller.ts`)

The controller handlers return the service result unchanged.  None of them
carries an `@HttpCode` decorator or throws an HTTP exception (the
`@ApiResponse` decorators are OpenAPI documentation only and do not affect the
response), so the framework assigns HTTP 200 to every handler that returns
normally; a handler whose awaited body rejected would surface as an unhandled
exception, i.e. HTTP 500.  That framework rule is modelled here as: status 200
on `.ok`, status 500 on `.error`. -/

/-- Body of `GET /health/live`. -/
structure LiveBody where
  status : String
  timestamp : String
deriving DecidableEq

namespace HealthController

/-- `HealthController.check` (`GET /health`): returns
`healthService.check()`. -/
def check (env : HealthEnv) : Nat × Except String HealthSnapshot :=
  match HealthService.check env with
  | .ok body => (200, .ok body)
  | .error e => (500, .error e)

/-- `HealthController.ready` (`GET /health/ready`): returns
`healthService.readiness()`. -/
def ready (env : HealthEnv) : Nat × Except String ReadinessSnapshot :=
  match HealthService.readiness env with
  | .ok body => (200, .ok body)
  | .error e => (500, .error e)

/-- `HealthController.live` (`GET /health/live`): does not touch the health
service at all; it only reads the clock and returns the literal
`{ status: 'ok', timestamp }`. -/
def live (now : String) : Nat × LiveBody :=
  (200, { status := "ok", timestamp := now })

end HealthController

/-! ## Shape lemmas: what each operation computes, by case analysis on the
underlying primitive outcomes -/

/-- `checkDatabase` never rejects: it returns the measured elapsed time when
the round trip succeeds and `-1` when it raises. -/
theorem checkDatabase_eq (env : HealthEnv) :
    HealthService.checkDatabase env
      = .ok (match env.prisma.selectOneResult with
             | .ok _ => (env.dbElapsed : Int)
             | .error _ => -1) := by
  cases h : env.prisma.selectOneResult <;>
    simp [HealthService.checkDatabase, PrismaService.isHealthy, h]

/-- `check` never rejects, and every status field of the snapshot it builds is
a hard-coded literal: overall `"ok"`, both checks `"up"`. -/
theorem check_eq (env : HealthEnv) :
    HealthService.check env
      = .ok { status := "ok"
              timestamp := env.now
              uptime := env.uptime
              checks := { database := { status := "up"
                                        responseTime :=
                                          match env.prisma.selectOneResult with
                                          | .ok _ => (env.dbElapsed : Int)
                                          | .error _ => -1
                                        details := "Connected successfully" }
                          redis := { status := "up"
                                     responseTime := (env.redisElapsed : Int)
                                     details := "Connected successfully" } }
              version := env.version
              environment := env.environment } := by
  cases h : env.prisma.selectOneResult <;>
    simp [HealthService.check, HealthService.checkDatabase, HealthService.checkRedis,
          PrismaService.isHealthy, Checks.values, h]

/-- `readiness` never rejects: each dependency bool is `responseTime > 0` of
the corresponding probe, and the status is the conjunction of the bools. -/
theorem readiness_eq (env : HealthEnv) :
    HealthService.readiness env
      = .ok { status :=
                if ((match env.prisma.selectOneResult with
                     | .ok _ => decide (0 < (env.dbElapsed : Int))
                     | .error _ => false)
                    && decide (0 < (env.redisElapsed : Int)))
                then "ready" else "not-ready"
              timestamp := env.now
              dependencies :=
                { database := match env.prisma.selectOneResult with
                              | .ok _ => decide (0 < (env.dbElapsed : Int))
                              | .error _ => false
                  redis := decide (0 < (env.redisElapsed : Int)) } } := by
  cases h : env.prisma.selectOneResult <;>
    simp [HealthService.readiness, HealthService.isDatabaseHealthy,
          HealthService.isRedisHealthy, HealthService.checkDatabase,
          HealthService.checkRedis, PrismaService.isHealthy, Dependencies.values, h]

/-! ## Concrete environments used by the claim theorems and witnesses -/

/-- A Prisma environment in which every primitive succeeds. -/
def okPrisma : PrismaEnv :=
  { connectResult := .ok (), disconnectResult := .ok ()
    enableExtensionResult := .ok (), createHypertableResult := .ok ()
    selectOneResult := .ok () }

/-- A Prisma environment whose `SELECT 1` round trip raises: the database is
unreachable. -/
def dbDownPrisma : PrismaEnv :=
  { connectResult := .ok (), disconnectResult := .ok ()
    enableExtensionResult := .ok (), createHypertableResult := .ok ()
    selectOneResult := .error "connection refused" }

/-- A health environment with the database unreachable and ordinary measured
latencies. -/
def dbDownEnv : HealthEnv :=
  { prisma := dbDownPrisma, dbElapsed := 3, redisElapsed := 5
    now := "2026-10-12T00:00:00.000Z", uptime := 42
    version := "1.0.0", environment := "test" }

/-- A health environment with every dependency reachable and positive measured
latencies. -/
def allUpEnv : HealthEnv :=
  { prisma := okPrisma, dbElapsed := 3, redisElapsed := 5
    now := "2026-10-12T00:00:00.000Z", uptime := 42
    version := "1.0.0", environment := "test" }

/-- A health environment whose database round trip succeeds but is measured at
0 elapsed milliseconds. -/
def fastDbEnv : HealthEnv :=
  { prisma := okPrisma, dbElapsed := 0, redisElapsed := 5
    now := "2026-10-12T00:00:00.000Z", uptime := 42
    version := "1.0.0", environment := "test" }

/-! ## Claim theorems -/

/-- C1: refuted half of the claim, evaluated at the failing input.  With the
database round trip raising, `check()` still returns overall status `"ok"` and
`checks.database.status = "up"` — only `responseTime = -1` records the failure
— because `check()` hard-codes every `status` field to the literal
`'up' as const`.  The readiness half behaves exactly as the claim states:
status `"not-ready"` with `dependencies.database = false`. -/
theorem c1_databaseUnreachable_eval :
    (HealthService.check dbDownEnv).toOption.map
        (fun s => (s.status, s.checks.database.status, s.checks.database.responseTime))
      = some ("ok", "up", -1)
    ∧ (HealthService.readiness dbDownEnv).toOption.map
        (fun r => (r.status, r.dependencies.database))
      = some ("not-ready", false) :=
  ⟨rfl, rfl⟩

/-- C2: refuted, evaluated at a concrete dependency state.  Under the same
dependency state (database round trip raising), `check()` reports the database
dependency with status `"up"` while `readiness()` maps the same name to
`false`: the two views disagree because `check()` hard-codes its per-check
status fields. -/
theorem c2_viewsDisagree_eval :
    (HealthService.check dbDownEnv).toOption.map
        (fun s => s.checks.database.status) = some "up"
    ∧ (HealthService.readiness dbDownEnv).toOption.map
        (fun r => r.dependencies.database) = some false :=
  ⟨rfl, rfl⟩

/-- C3: probe containment holds.  If the database probe's underlying round
trip raises, `checkDatabase` still returns the well-formed sentinel `-1` and
`isDatabaseHealthy` returns `false`; moreover no probe — and neither `check()`
nor `readiness()` — ever rejects, for any dependency state. -/
theorem c3_probeContainment (env : HealthEnv) (e : String)
    (h : env.prisma.selectOneResult = .error e) :
    HealthService.checkDatabase env = .ok (-1)
    ∧ HealthService.isDatabaseHealthy env = .ok false
    ∧ (∀ env' : HealthEnv,
        (∃ n, HealthService.checkDatabase env' = .ok n)
        ∧ (∃ n, HealthService.checkRedis env' = .ok n)
        ∧ (∃ s, HealthService.check env' = .ok s)
        ∧ (∃ r, HealthService.readiness env' = .ok r)) := by
  refine ⟨?_, ?_, fun env' => ⟨⟨_, checkDatabase_eq env'⟩, ⟨_, rfl⟩,
    ⟨_, check_eq env'⟩, ⟨_, readiness_eq env'⟩⟩⟩
  · simp [checkDatabase_eq env, h]
  · simp [HealthService.isDatabaseHealthy, checkDatabase_eq env, h]

/-- C3 witness: the containment theorem applied at a concrete environment
whose database round trip raises. -/
theorem c3_witness :
    HealthService.checkDatabase dbDownEnv = .ok (-1)
    ∧ HealthService.isDatabaseHealthy dbDownEnv = .ok false :=
  ⟨(c3_probeContainment dbDownEnv "connection refused" rfl).1,
   (c3_probeContainment dbDownEnv "connection refused" rfl).2.1⟩

/-- C4: confirmed.  For every dependency state, the snapshot returned by
`check()` has status `"ok"` iff every entry of its checks map has status
`"up"`, and the snapshot returned by `readiness()` has status `"ready"` iff
every boolean in its dependencies map is true. -/
theorem c4_overallIffAll (env : HealthEnv) :
    (∀ s, HealthService.check env = .ok s →
      (s.status = "ok" ↔ s.checks.values.all (fun c => c.status == "up") = true))
    ∧ (∀ r, HealthService.readiness env = .ok r →
      (r.status = "ready" ↔ r.dependencies.values.all (fun b => b) = true)) := by
  constructor
  · intro s hs
    rw [check_eq env] at hs
    cases hs
    simp [Checks.values]
  · intro r hr
    rw [readiness_eq env] at hr
    cases hr
    rcases Nat.eq_zero_or_pos env.dbElapsed with h0 | h0 <;>
      rcases Nat.eq_zero_or_pos env.redisElapsed with h0' | h0' <;>
      cases hq : env.prisma.selectOneResult <;>
      simp [Dependencies.values, hq, h0, h0']

/-- C4 witness: the iff instantiated at a concrete all-up environment. -/
theorem c4_witness :
    (({ status := "ok"
        timestamp := "2026-10-12T00:00:00.000Z"
        uptime := 42
        checks := { database := { status := "up", responseTime := 3
                                  details := "Connected successfully" }
                    redis := { status := "up", responseTime := 5
                               details := "Connected successfully" } }
        version := "1.0.0"
        environment := "test" } : HealthSnapshot).status = "ok"
      ↔ ({ status := "ok"
           timestamp := "2026-10-12T00:00:00.000Z"
           uptime := 42
           checks := { database := { status := "up", responseTime := 3
                                     details := "Connected successfully" }
                       redis := { status := "up", responseTime := 5
                                  details := "Connected successfully" } }
           version := "1.0.0"
           environment := "test" } : HealthSnapshot).checks.values.all
            (fun c => c.status == "up") = true)
    ∧ (({ status := "ready"
          timestamp := "2026-10-12T00:00:00.000Z"
          dependencies := { database := true, redis := true } } :
            ReadinessSnapshot).status = "ready"
      ↔ ({ status := "ready"
           timestamp := "2026-10-12T00:00:00.000Z"
           dependencies := { database := true, redis := true } } :
            ReadinessSnapshot).dependencies.values.all (fun b => b) = true) :=
  ⟨(c4_overallIffAll allUpEnv).1 _ rfl, (c4_overallIffAll allUpEnv).2 _ rfl⟩

/-- C5: refuted half of the claim, evaluated at the failing input, plus the
half that does hold.  The handlers carry no `@HttpCode` decorator and throw no
HTTP exception (the `@ApiResponse` decorators are OpenAPI documentation only),
so every normally-returning handler gets HTTP 200: with the database
unreachable, `GET /health/ready` answers 200 with body status `"not-ready"`
instead of the claimed 503.  The never-500 half does hold: for every
dependency state both handlers answer 200, never 500. -/
theorem c5_httpStatus_eval :
    (HealthController.ready dbDownEnv).1 = 200
    ∧ (HealthController.ready dbDownEnv).2.toOption.map (fun r => r.status)
        = some "not-ready"
    ∧ (∀ env : HealthEnv,
        (HealthController.check env).1 = 200 ∧ (HealthController.ready env).1 = 200) := by
  refine ⟨rfl, rfl, fun env => ⟨?_, ?_⟩⟩
  · simp [HealthController.check, check_eq env]
  · simp [HealthController.ready, readiness_eq env]

/-- C6: confirmed.  The liveness handler takes only the clock reading — it
invokes no dependency probe (its definition does not even consult a
`PrismaEnv`/`HealthEnv`) — and returns HTTP 200 with the literal status `"ok"`
and the current timestamp; hence two calls, one with the database up and one
with it down, return the same status field. -/
theorem c6_liveness (nowUp nowDown : String) :
    HealthController.live nowUp = (200, { status := "ok", timestamp := nowUp })
    ∧ (HealthController.live nowUp).2.status = (HealthController.live nowDown).2.status :=
  ⟨rfl, rfl⟩

/-- A Prisma environment on a backend without the time-series capability: both
bootstrap raw statements raise. -/
def tsUnavailablePrisma : PrismaEnv :=
  { connectResult := .ok (), disconnectResult := .ok ()
    enableExtensionResult := .error "timescaledb not available"
    createHypertableResult := .error "function create_hypertable does not exist"
    selectOneResult := .ok () }

/-- A Prisma environment whose `$connect` raises. -/
def connectFailPrisma : PrismaEnv :=
  { connectResult := .error "ECONNREFUSED", disconnectResult := .ok ()
    enableExtensionResult := .ok (), createHypertableResult := .ok ()
    selectOneResult := .error "not connected" }

/-- A Prisma environment whose `$disconnect` raises. -/
def disconnectFailPrisma : PrismaEnv :=
  { connectResult := .ok (), disconnectResult := .error "socket closed"
    enableExtensionResult := .ok (), createHypertableResult := .ok ()
    selectOneResult := .ok () }

/-- C7: confirmed.  For every outcome of the two bootstrap raw statements,
`initializeTimescaleDB` issues the extension-enable statement strictly before
the hypertable-create statement (positions 0 and 2 of its trace), a failure of
either step is caught and logged as a warning while the call still returns
normally, and a second invocation — modelling a rerun on an
already-bootstrapped store — also returns normally and leaves the connection
state `Connected`. -/
theorem c7_bootstrapOrderIdempotent (env env' : PrismaEnv) :
    (PrismaService.initializeTimescaleDB env).result = .ok ()
    ∧ (PrismaService.initializeTimescaleDB env').result = .ok ()
    ∧ connStateAfter .Connected
        ((PrismaService.initializeTimescaleDB env).trace
          ++ (PrismaService.initializeTimescaleDB env').trace) = .Connected
    ∧ (PrismaService.initializeTimescaleDB env).trace.get? 0 = some .enableExtension
    ∧ (PrismaService.initializeTimescaleDB env).trace.get? 2 = some .createHypertable
    ∧ ((∃ e, env.enableExtensionResult = .error e)
        → .logWarn ∈ (PrismaService.initializeTimescaleDB env).trace)
    ∧ ((∃ e, env.createHypertableResult = .error e)
        → .logWarn ∈ (PrismaService.initializeTimescaleDB env).trace) := by
  cases h1 : env.enableExtensionResult <;> cases h2 : env.createHypertableResult <;>
  cases h3 : env'.enableExtensionResult <;> cases h4 : env'.createHypertableResult <;>
    simp [PrismaService.initializeTimescaleDB, PrismaService.enableTimescaleDB,
          PrismaService.createMarketDataHypertable, connStateAfter, stepConn,
          h1, h2, h3, h4]

/-- C7 witness: the bootstrap theorem applied twice to a concrete environment
lacking the time-series capability, extracting the warning log and the normal
return. -/
theorem c7_witness :
    (PrismaService.initializeTimescaleDB tsUnavailablePrisma).result = .ok ()
    ∧ DbEvent.logWarn ∈ (PrismaService.initializeTimescaleDB tsUnavailablePrisma).trace
    ∧ connStateAfter .Connected
        ((PrismaService.initializeTimescaleDB tsUnavailablePrisma).trace
          ++ (PrismaService.initializeTimescaleDB tsUnavailablePrisma).trace)
        = .Connected :=
  ⟨(c7_bootstrapOrderIdempotent tsUnavailablePrisma tsUnavailablePrisma).1,
   (c7_bootstrapOrderIdempotent tsUnavailablePrisma tsUnavailablePrisma).2.2.2.2.2.1
     ⟨"timescaledb not available", rfl⟩,
   (c7_bootstrapOrderIdempotent tsUnavailablePrisma tsUnavailablePrisma).2.2.1⟩

/-- C8: confirmed.  `onModuleInit` rejects iff `$connect` rejects; when
`$connect` succeeds it returns normally whatever the bootstrap-step outcomes;
and `onModuleDestroy` always returns normally, whatever `$disconnect` does. -/
theorem c8_startupPropagation (env : PrismaEnv) :
    ((∃ e, (PrismaService.onModuleInit env).result = .error e)
      ↔ (∃ e, env.connectResult = .error e))
    ∧ (env.connectResult = .ok ()
        → (PrismaService.onModuleInit env).result = .ok ())
    ∧ (PrismaService.onModuleDestroy env).result = .ok () := by
  cases hc : env.connectResult <;> cases hd : env.disconnectResult <;>
  cases h1 : env.enableExtensionResult <;> cases h2 : env.createHypertableResult <;>
    simp [PrismaService.onModuleInit, PrismaService.onModuleDestroy,
          PrismaService.initializeTimescaleDB, PrismaService.enableTimescaleDB,
          PrismaService.createMarketDataHypertable, hc, hd, h1, h2]

/-- C8 witness: startup succeeds on a concrete all-ok environment, and
shutdown returns normally on a concrete environment whose `$disconnect`
raises. -/
theorem c8_witness :
    (PrismaService.onModuleInit okPrisma).result = .ok ()
    ∧ (PrismaService.onModuleDestroy disconnectFailPrisma).result = .ok () :=
  ⟨(c8_startupPropagation okPrisma).2.1 rfl,
   (c8_startupPropagation disconnectFailPrisma).2.2⟩

/-- C9: confirmed.  For every outcome of the `SELECT 1` round trip,
`isHealthy` returns a boolean and never rejects: `true` exactly when the query
succeeds, `false` exactly when it raises. -/
theorem c9_isHealthyTotal (env : PrismaEnv) :
    ((PrismaService.isHealthy env).result = .ok true
      ↔ env.selectOneResult = .ok ())
    ∧ ((PrismaService.isHealthy env).result = .ok false
      ↔ ∃ e, env.selectOneResult = .error e)
    ∧ (∀ e, (PrismaService.isHealthy env).result ≠ .error e) := by
  cases h : env.selectOneResult <;> simp [PrismaService.isHealthy, h]

/-- C9 witness: the theorem applied at a concrete environment whose round trip
raises, yielding `false` without an exception. -/
theorem c9_witness :
    (PrismaService.isHealthy dbDownPrisma).result = .ok false :=
  (c9_isHealthyTotal dbDownPrisma).2.1.mpr ⟨"connection refused", rfl⟩

/-- C10: confirmed.  `readiness()` maps a dependency to `true` exactly when
its probe's measured `responseTime` is strictly positive: the redis dependency
— whose check only awaits a hard-coded 5 ms wait, so its measured elapsed time
is at least 5 — is always `true`, the database dependency is `true` iff
`checkDatabase` returned a strictly positive latency, and a database round
trip that succeeds in 0 measured milliseconds is reported `false`. -/
theorem c10_positiveLatencyThreshold (env : HealthEnv) (h5 : 5 ≤ env.redisElapsed) :
    (∀ r, HealthService.readiness env = .ok r →
        (r.dependencies.redis = true
         ∧ (r.dependencies.database = true
             ↔ ∃ rt, HealthService.checkDatabase env = .ok rt ∧ 0 < rt)))
    ∧ (env.prisma.selectOneResult = .ok () → env.dbElapsed = 0 →
        ∀ r, HealthService.readiness env = .ok r → r.dependencies.database = false) := by
  constructor
  · intro r hr
    rw [readiness_eq env] at hr
    cases hr
    constructor
    · simp
      omega
    · cases hq : env.prisma.selectOneResult <;> simp [checkDatabase_eq env, hq]
  · intro hok h0 r hr
    rw [readiness_eq env] at hr
    cases hr
    simp [hok, h0]

/-- C10 witness: the theorem applied at a concrete environment whose database
round trip succeeds in 0 measured milliseconds: the database dependency is
reported `false` while the redis dependency is reported `true`. -/
theorem c10_witness :
    ({ status := "not-ready"
       timestamp := "2026-10-12T00:00:00.000Z"
       dependencies := { database := false, redis := true } } :
        ReadinessSnapshot).dependencies.database = false
    ∧ ({ status := "not-ready"
         timestamp := "2026-10-12T00:00:00.000Z"
         dependencies := { database := false, redis := true } } :
          ReadinessSnapshot).dependencies.redis = true :=
  ⟨(c10_positiveLatencyThreshold fastDbEnv (by decide)).2 rfl rfl _ rfl,
   ((c10_positiveLatencyThreshold fastDbEnv (by decide)).1 _ rfl).1⟩
